import Mathlib

/-!
Verification of the `cutout` 2D drawing library.

The development shallowly embeds the two source modules:

* `src/cutout/transformations.py` — 3x3 homogeneous matrices over `ℝ`,
  their conversion to the six-coefficient cairo form, and the
  rotate-around-a-pivot construction.
* `src/cutout/shapes.py` — the paint dispatcher and the per-shape
  constructors / `draw` methods.  Drawing is modelled as a pure function
  producing a `DrawResult`: the list of surface calls actually performed
  (in order) together with an optional style-validation error.  A raised
  Python `ValueError` is modelled by the `err` field being `some`; the
  calls performed before the raise are exactly the `ops` list.

Modelling conventions, stated once:

* Coordinates that the Python code manipulates with rational arithmetic
  are embedded over `ℚ` so that everything stays computable; the purely
  trigonometric parts (the rotation matrix, the regular-polygon and star
  vertex generation) are embedded over `ℝ` with `Real.cos` / `Real.sin`.
* All arc angles appearing in the shape code are integer multiples of
  `π/2`; the `arc` surface call therefore records its two angles in
  units of π (e.g. the full circle sweep `0 .. 2π` is recorded `0 .. 2`).
* The `transform` surface call records the parameters that
  `transformations.rotate_around_point(math.radians(orientation),
  position)` receives (orientation in degrees and the pivot); the matrix
  it builds from them is modelled exactly in the transformations section.
* `Arrow.__init__` computes `self.length = math.sqrt(vx**2 + vy**2)`,
  an irrational number in general; the embedding takes the length as an
  explicit argument (`mkArrow ... length ...`) so that the remaining —
  entirely rational — arrow arithmetic stays computable.
-/

/- ============================================================ -/
/- Part 1: transformations.py                                   -/
/- ============================================================ -/

/-- A 3x3 matrix as produced by `np.array` in `transformations.py`;
row-major fields `mRC`. -/
structure Mat3 where
  m00 : ℝ
  m01 : ℝ
  m02 : ℝ
  m10 : ℝ
  m11 : ℝ
  m12 : ℝ
  m20 : ℝ
  m21 : ℝ
  m22 : ℝ

/-- Matrix product, the `@` operator of numpy on 3x3 arrays. -/
def matMul (A B : Mat3) : Mat3 where
  m00 := A.m00 * B.m00 + A.m01 * B.m10 + A.m02 * B.m20
  m01 := A.m00 * B.m01 + A.m01 * B.m11 + A.m02 * B.m21
  m02 := A.m00 * B.m02 + A.m01 * B.m12 + A.m02 * B.m22
  m10 := A.m10 * B.m00 + A.m11 * B.m10 + A.m12 * B.m20
  m11 := A.m10 * B.m01 + A.m11 * B.m11 + A.m12 * B.m21
  m12 := A.m10 * B.m02 + A.m11 * B.m12 + A.m12 * B.m22
  m20 := A.m20 * B.m00 + A.m21 * B.m10 + A.m22 * B.m20
  m21 := A.m20 * B.m01 + A.m21 * B.m11 + A.m22 * B.m21
  m22 := A.m20 * B.m02 + A.m21 * B.m12 + A.m22 * B.m22

/-- Embeds `transformations.rotation_matrix(rotation_angle)`. -/
noncomputable def rotation_matrix (θ : ℝ) : Mat3 :=
  ⟨Real.cos θ, -Real.sin θ, 0, Real.sin θ, Real.cos θ, 0, 0, 0, 1⟩

/-- Embeds `transformations.translation_matrix(x_t, y_t)`. -/
def translation_matrix (xt yt : ℝ) : Mat3 :=
  ⟨1, 0, xt, 0, 1, yt, 0, 0, 1⟩

/-- The six-coefficient affine form `cairo.Matrix(xx, yx, xy, yy, x0, y0)`. -/
structure CairoMatrix where
  xx : ℝ
  yx : ℝ
  xy : ℝ
  yy : ℝ
  x0 : ℝ
  y0 : ℝ

/-- Embeds `transformations.cairo_matrix(matrix)`: the argument order of the
source is `(m[0][0], m[1][0], m[0][1], m[1][1], m[0][2], m[1][2])`. -/
def cairo_matrix (m : Mat3) : CairoMatrix :=
  ⟨m.m00, m.m10, m.m01, m.m11, m.m02, m.m12⟩

/-- Embeds `transformations.rotate_around_point(rotation_angle, pivot_point)`:
`cairo_matrix(trans_matrix_1 @ rot_matrix @ trans_matrix_0)` where
`trans_matrix_0 = translation_matrix(-px, -py)` and
`trans_matrix_1 = translation_matrix(px, py)`. -/
noncomputable def rotate_around_point (θ px py : ℝ) : CairoMatrix :=
  cairo_matrix
    (matMul (translation_matrix px py)
      (matMul (rotation_matrix θ) (translation_matrix (-px) (-py))))

/-- The action of a cairo matrix on a point:
`x' = xx*x + xy*y + x0`, `y' = yx*x + yy*y + y0`. -/
def applyCairo (M : CairoMatrix) (x y : ℝ) : ℝ × ℝ :=
  (M.xx * x + M.xy * y + M.x0, M.yx * x + M.yy * y + M.y0)

/-- Rotation of a plane vector about the origin by angle `θ`. -/
noncomputable def rotatePt (θ x y : ℝ) : ℝ × ℝ :=
  (Real.cos θ * x - Real.sin θ * y, Real.sin θ * x + Real.cos θ * y)

/- ============================================================ -/
/- Part 2: shapes.py — constants and the paint dispatcher       -/
/- ============================================================ -/

/-- Cairo line-cap enumeration values (`cairo.LINE_CAP_*`). -/
inductive CairoCap where
  | square : CairoCap
  | round : CairoCap
  | butt : CairoCap
  deriving DecidableEq

/-- Cairo line-join enumeration values (`cairo.LINE_JOIN_*`). -/
inductive CairoJoin where
  | bevel : CairoJoin
  | round : CairoJoin
  | miter : CairoJoin
  deriving DecidableEq

/-- Embeds `shapes.LINE_STYLES`, in dict insertion order. -/
def LINE_STYLES : List (String × List ℚ) :=
  [("--", [4, 1]), ("-", []), (".", [0, 2]), ("-.", [0, 2, 4, 2])]

/-- Embeds `shapes.LINE_CAPS`, in dict insertion order. -/
def LINE_CAPS : List (String × CairoCap) :=
  [("square", CairoCap.square), ("round", CairoCap.round), ("butt", CairoCap.butt)]

/-- Embeds `shapes.LINE_JOINS`, in dict insertion order.  Note the source
spells the miter key `"mitter"`. -/
def LINE_JOINS : List (String × CairoJoin) :=
  [("bevel", CairoJoin.bevel), ("round", CairoJoin.round), ("mitter", CairoJoin.miter)]

/-- Embeds `LINE_STYLES.keys()`. -/
def styleKeys : List String := LINE_STYLES.map Prod.fst

/-- Embeds `LINE_CAPS.keys()`. -/
def capKeys : List String := LINE_CAPS.map Prod.fst

/-- Embeds `LINE_JOINS.keys()`. -/
def joinKeys : List String := LINE_JOINS.map Prod.fst

/-- One call performed on the cairo surface (the `cairo.Context`).
Color arguments record the color name handed to `colors.get_color`
(color resolution is outside the embedded sources). -/
inductive SurfaceOp where
  | save : SurfaceOp
  | restore : SurfaceOp
  | transform (angleDeg px py : ℚ) : SurfaceOp
  | arc (cx cy r a0pi a1pi : ℚ) : SurfaceOp
  | rect (x y w h : ℚ) : SurfaceOp
  | moveTo (x y : ℚ) : SurfaceOp
  | lineTo (x y : ℚ) : SurfaceOp
  | closePath : SurfaceOp
  | setSourceRgba (color : String) (opacity : ℚ) : SurfaceOp
  | fillPreserve : SurfaceOp
  | setLineWidth (w : ℚ) : SurfaceOp
  | setDash (pattern : List ℚ) : SurfaceOp
  | setLineCap (c : CairoCap) : SurfaceOp
  | setLineJoin (j : CairoJoin) : SurfaceOp
  | stroke : SurfaceOp
  deriving DecidableEq

/-- The data of the `ValueError` raised by `paint_paths`: which option
family the message names, and the key list it interpolates. -/
structure StyleError where
  option_name : String
  allowed : List String
  deriving DecidableEq

/-- Outcome of a draw call: the surface calls performed, in order, and
the validation error if one was raised (the calls already performed
before the raise remain in `ops`). -/
structure DrawResult where
  ops : List SurfaceOp
  err : Option StyleError
  deriving DecidableEq

/-- The fill block of `paint_paths`: `if fill_color is not None:
set_source_rgba(...); fill_preserve()`. -/
def fillOps (fill_color : Option String) (opacity : ℚ) : List SurfaceOp :=
  match fill_color with
  | none => []
  | some c => [SurfaceOp.setSourceRgba c opacity, SurfaceOp.fillPreserve]

/-- The scaled dash list `(line_width * i for i in LINE_STYLES[line_style])`. -/
def dashValues (line_width : ℚ) (line_style : String) : List ℚ :=
  ((LINE_STYLES.lookup line_style).getD []).map (fun i => line_width * i)

/-- The stroke block of `paint_paths` (runs only when `line_color` is
set): source color, line width, dash pattern, the cap (forced to round
for the dotted and dash-dot styles), the join, then `stroke()`. -/
def strokeOps (line_color : Option String) (line_width : ℚ)
    (line_style line_cap line_join : String) (opacity : ℚ) : List SurfaceOp :=
  match line_color with
  | none => []
  | some c =>
    [SurfaceOp.setSourceRgba c opacity,
     SurfaceOp.setLineWidth line_width,
     SurfaceOp.setDash (dashValues line_width line_style),
     SurfaceOp.setLineCap
       (if line_style = "." ∨ line_style = "-." then
         (LINE_CAPS.lookup "round").getD CairoCap.butt
       else (LINE_CAPS.lookup line_cap).getD CairoCap.butt),
     SurfaceOp.setLineJoin ((LINE_JOINS.lookup line_join).getD CairoJoin.miter),
     SurfaceOp.stroke]

/-- Embeds `shapes.paint_paths`.  The three membership checks run, in source
order, before any surface call; note the third error message names
"line joints" but interpolates `LINE_CAPS.keys()` (the source does
exactly that). -/
def paint_paths (fill_color line_color : Option String) (line_width : ℚ)
    (line_style line_cap line_join : String) (opacity : ℚ) : DrawResult :=
  if line_style ∉ styleKeys then
    ⟨[], some ⟨"line styles", styleKeys⟩⟩
  else if line_cap ∉ capKeys then
    ⟨[], some ⟨"line caps", capKeys⟩⟩
  else if line_join ∉ joinKeys then
    ⟨[], some ⟨"line joints", capKeys⟩⟩
  else
    ⟨fillOps fill_color opacity ++
       strokeOps line_color line_width line_style line_cap line_join opacity,
     none⟩

/-- Holds of exactly the paint-phase calls (everything `paint_paths`
can emit: source/fill/stroke/style-state calls). -/
def isPaintOp : SurfaceOp → Bool
  | SurfaceOp.setSourceRgba _ _ => true
  | SurfaceOp.fillPreserve => true
  | SurfaceOp.setLineWidth _ => true
  | SurfaceOp.setDash _ => true
  | SurfaceOp.setLineCap _ => true
  | SurfaceOp.setLineJoin _ => true
  | SurfaceOp.stroke => true
  | _ => false

/-- Holds of exactly the path-construction calls. -/
def isPathConOp : SurfaceOp → Bool
  | SurfaceOp.arc _ _ _ _ _ => true
  | SurfaceOp.rect _ _ _ _ => true
  | SurfaceOp.moveTo _ _ => true
  | SurfaceOp.lineTo _ _ => true
  | SurfaceOp.closePath => true
  | _ => false

/- ============================================================ -/
/- Part 3: shapes.py — the shape classes and their draw methods -/
/- ============================================================ -/

/-- Shared tail of the save-bracketed `draw` methods: the calls before
the paint dispatcher (`pre`), then the dispatcher's outcome.  The
source uses a bare `surface.save()` / `surface.restore()` pair (no
`try/finally`), so when the dispatcher raises, the exception propagates
and `restore()` is never executed. -/
def finishDraw (pre : List SurfaceOp) (p : DrawResult) : DrawResult :=
  match p.err with
  | some e => ⟨pre ++ p.ops, some e⟩
  | none => ⟨pre ++ p.ops ++ [SurfaceOp.restore], none⟩

/-- Embeds `shapes.Circle.__init__` stored fields (defaults as in the source). -/
structure CircleShape where
  radius : ℚ
  position : ℚ × ℚ := (0, 0)
  orientation : ℚ := 0
  line_color : Option String := some "black"
  line_width : ℚ := 1
  line_style : String := "-"
  fill_color : Option String := none
  opacity : ℚ := 1

/-- Embeds `shapes.Circle.draw`: save, transform, full `0..2π` arc, then
`paint_paths` with cap `"butt"` and join `"mitter"` hardcoded. -/
def circleDraw (s : CircleShape) : DrawResult :=
  finishDraw
    [SurfaceOp.save,
     SurfaceOp.transform s.orientation s.position.1 s.position.2,
     SurfaceOp.arc s.position.1 s.position.2 s.radius 0 2]
    (paint_paths s.fill_color s.line_color s.line_width s.line_style
      "butt" "mitter" s.opacity)

/-- Embeds `shapes.Rectangle.__init__` stored fields. -/
structure RectangleShape where
  position : ℚ × ℚ
  width : ℚ
  height : ℚ
  orientation : ℚ := 0
  line_color : Option String := some "black"
  line_width : ℚ := 1
  line_style : String := "-"
  line_cap : String := "butt"
  line_join : String := "mitter"
  fill_color : Option String := none
  opacity : ℚ := 1

/-- Embeds `shapes.Rectangle.draw`: save, transform, rectangle with the corner
at `position - (width/2, height/2)`, then `paint_paths`. -/
def rectangleDraw (s : RectangleShape) : DrawResult :=
  finishDraw
    [SurfaceOp.save,
     SurfaceOp.transform s.orientation s.position.1 s.position.2,
     SurfaceOp.rect (s.position.1 - s.width / 2) (s.position.2 - s.height / 2)
       s.width s.height]
    (paint_paths s.fill_color s.line_color s.line_width s.line_style
      s.line_cap s.line_join s.opacity)

/-- The polyline path of `Lines.draw` / `Polygon.draw`: `move_to` the
first point, then `line_to` each subsequent point in order.  (The
source indexes `points[0]` first, so the list is never empty when this
runs; the `[]` branch is unreachable for constructed shapes.) -/
def polyPathOps (pts : List (ℚ × ℚ)) : List SurfaceOp :=
  match pts with
  | [] => []
  | q :: qs => SurfaceOp.moveTo q.1 q.2 :: qs.map (fun r => SurfaceOp.lineTo r.1 r.2)

/-- Embeds `shapes.Lines.__init__` stored fields, including the derived
bounding-box fields and the derived `position` pivot. -/
structure LinesShape where
  points : List (ℚ × ℚ)
  orientation : ℚ
  line_color : Option String
  line_style : String
  line_width : ℚ
  line_cap : String
  line_join : String
  opacity : ℚ
  max_x : ℚ
  min_x : ℚ
  max_y : ℚ
  min_y : ℚ
  position : ℚ × ℚ

/-- Embeds `shapes.Lines.__init__` on a non-empty point list `p0 :: ps`:
`max_x = np.max(points[:, 0])` is the fold of `max` over the x
coordinates (dually for the others), and
`position = [(max_x - min_x) / 2, (max_y - min_y) / 2]`. -/
def mkLinesCore (p0 : ℚ × ℚ) (ps : List (ℚ × ℚ)) (orientation : ℚ)
    (line_color : Option String) (line_style : String) (line_width : ℚ)
    (line_cap line_join : String) (opacity : ℚ) : LinesShape :=
  let mx := (ps.map Prod.fst).foldl max p0.1
  let mnx := (ps.map Prod.fst).foldl min p0.1
  let my := (ps.map Prod.snd).foldl max p0.2
  let mny := (ps.map Prod.snd).foldl min p0.2
  { points := p0 :: ps
    orientation := orientation
    line_color := line_color
    line_style := line_style
    line_width := line_width
    line_cap := line_cap
    line_join := line_join
    opacity := opacity
    max_x := mx
    min_x := mnx
    max_y := my
    min_y := mny
    position := ((mx - mnx) / 2, (my - mny) / 2) }

/-- Embeds `shapes.Lines(points, ...)`: `np.max` / `np.min` fail on an empty
array, so construction succeeds exactly on non-empty point lists. -/
def mkLines (pts : List (ℚ × ℚ)) (orientation : ℚ) (line_color : Option String)
    (line_style : String) (line_width : ℚ) (line_cap line_join : String)
    (opacity : ℚ) : Option LinesShape :=
  match pts with
  | [] => none
  | p0 :: ps =>
    some (mkLinesCore p0 ps orientation line_color line_style line_width
      line_cap line_join opacity)

/-- Embeds `shapes.Lines.draw`: save, transform about the derived pivot, the
open polyline path, then `paint_paths` with `fill_color=None`. -/
def linesDraw (s : LinesShape) : DrawResult :=
  finishDraw
    ([SurfaceOp.save,
      SurfaceOp.transform s.orientation s.position.1 s.position.2] ++
      polyPathOps s.points)
    (paint_paths none s.line_color s.line_width s.line_style
      s.line_cap s.line_join s.opacity)

/-- Embeds `shapes.Polygon.__init__` stored fields (as `LinesShape` plus
`fill_color`). -/
structure PolygonShape where
  points : List (ℚ × ℚ)
  orientation : ℚ
  fill_color : Option String
  line_color : Option String
  line_style : String
  line_width : ℚ
  line_cap : String
  line_join : String
  opacity : ℚ
  max_x : ℚ
  min_x : ℚ
  max_y : ℚ
  min_y : ℚ
  position : ℚ × ℚ

/-- Embeds `shapes.Polygon.__init__` on a non-empty point list: identical
bounding-box and pivot computation to `Lines.__init__`. -/
def mkPolygonCore (p0 : ℚ × ℚ) (ps : List (ℚ × ℚ)) (orientation : ℚ)
    (fill_color line_color : Option String) (line_style : String)
    (line_width : ℚ) (line_cap line_join : String) (opacity : ℚ) : PolygonShape :=
  let mx := (ps.map Prod.fst).foldl max p0.1
  let mnx := (ps.map Prod.fst).foldl min p0.1
  let my := (ps.map Prod.snd).foldl max p0.2
  let mny := (ps.map Prod.snd).foldl min p0.2
  { points := p0 :: ps
    orientation := orientation
    fill_color := fill_color
    line_color := line_color
    line_style := line_style
    line_width := line_width
    line_cap := line_cap
    line_join := line_join
    opacity := opacity
    max_x := mx
    min_x := mnx
    max_y := my
    min_y := mny
    position := ((mx - mnx) / 2, (my - mny) / 2) }

/-- Embeds `shapes.Polygon(points, ...)`: fails exactly on an empty point list. -/
def mkPolygon (pts : List (ℚ × ℚ)) (orientation : ℚ)
    (fill_color line_color : Option String) (line_style : String)
    (line_width : ℚ) (line_cap line_join : String) (opacity : ℚ) :
    Option PolygonShape :=
  match pts with
  | [] => none
  | p0 :: ps =>
    some (mkPolygonCore p0 ps orientation fill_color line_color line_style
      line_width line_cap line_join opacity)

/-- Embeds `shapes.Polygon.draw`: as `Lines.draw` but with `close_path()` after
the polyline and with the stored `fill_color` passed to `paint_paths`. -/
def polygonDraw (s : PolygonShape) : DrawResult :=
  finishDraw
    ([SurfaceOp.save,
      SurfaceOp.transform s.orientation s.position.1 s.position.2] ++
      polyPathOps s.points ++ [SurfaceOp.closePath])
    (paint_paths s.fill_color s.line_color s.line_width s.line_style
      s.line_cap s.line_join s.opacity)

/-- Embeds `shapes.Arrow.__init__` stored fields.  `length` is
`math.sqrt(vector[0]**2 + vector[1]**2)`, taken as an argument of the
constructor model (see the header note); the four rows of
`self.arrow_head_points` are stored as `head_p0 .. head_p3`. -/
structure ArrowShape where
  origin : ℚ × ℚ
  vector : ℚ × ℚ
  length : ℚ
  head_style : String
  head_length : ℚ
  head_width : ℚ
  min_head_length : Option ℚ
  line_color : Option String
  line_style : String
  line_width : ℚ
  opacity : ℚ
  head_p0 : ℚ × ℚ
  head_p1 : ℚ × ℚ
  head_p2 : ℚ × ℚ
  head_p3 : ℚ × ℚ

/-- The `min_head_length` clamping block of `Arrow.__init__`.  The
Python guard `if self.min_head_length:` is truthiness: both `None` and
`0` skip the block.  Returns the effective `(head_length, head_width)`. -/
def arrowHeadClamp (length head_length head_width : ℚ)
    (min_head_length : Option ℚ) : ℚ × ℚ :=
  match min_head_length with
  | none => (head_length, head_width)
  | some m =>
    if m ≠ 0 then
      if length < m then
        (1, head_width / head_length)
      else if head_length * length < m then
        (m / length, (head_width / head_length) * (m / length))
      else (head_length, head_width)
    else (head_length, head_width)

/-- Embeds `shapes.Arrow.__init__`: the unit normal `(-vy, vx) / length`, the
clamping block, then the four arrow-head points
`[tip, back+offset, notch, back-offset]` where
`back = origin + (1 - head_length)·vector`,
`offset = normal·(head_width/2)·length` and
`notch = origin + (1 - 0.8·head_length)·vector`. -/
def mkArrow (origin vector : ℚ × ℚ) (length : ℚ) (head_style : String)
    (head_length head_width : ℚ) (min_head_length : Option ℚ)
    (line_color : Option String) (line_style : String)
    (line_width opacity : ℚ) : ArrowShape :=
  let normal : ℚ × ℚ := (-vector.2 / length, vector.1 / length)
  let hlw := arrowHeadClamp length head_length head_width min_head_length
  let hl := hlw.1
  let hw := hlw.2
  let tip : ℚ × ℚ := (origin.1 + vector.1, origin.2 + vector.2)
  let back : ℚ × ℚ :=
    (origin.1 + (1 - hl) * vector.1, origin.2 + (1 - hl) * vector.2)
  let off : ℚ × ℚ :=
    (normal.1 * (hw / 2) * length, normal.2 * (hw / 2) * length)
  { origin := origin
    vector := vector
    length := length
    head_style := head_style
    head_length := hl
    head_width := hw
    min_head_length := min_head_length
    line_color := line_color
    line_style := line_style
    line_width := line_width
    opacity := opacity
    head_p0 := tip
    head_p1 := (back.1 + off.1, back.2 + off.2)
    head_p2 := (origin.1 + (1 - (4 / 5) * hl) * vector.1,
                origin.2 + (1 - (4 / 5) * hl) * vector.2)
    head_p3 := (back.1 - off.1, back.2 - off.2) }

/-- The head branch of `shapes.Arrow.draw`: the `if/elif` chain on
`head_style`.  Each known style draws through a nested `Polygon` or
`Lines` constructed with the source's argument lists (note the
`"stroke"` head leaves `opacity` at the `Lines` default `1.0`); an
unknown style has no `else` branch in the source, so nothing is drawn
and no error is raised.  The boolean mask `[True, True, False, True]`
selects head points 0, 1, 3 for the `"triangle"` head; the `"stroke"`
head uses points 1, 0, 3; the `"arrow"` head uses all four. -/
def headDraw (a : ArrowShape) : DrawResult :=
  if a.head_style = "triangle" then
    polygonDraw (mkPolygonCore a.head_p0 [a.head_p1, a.head_p3] 0
      a.line_color a.line_color "-" a.line_width "butt" "bevel" a.opacity)
  else if a.head_style = "stroke" then
    linesDraw (mkLinesCore a.head_p1 [a.head_p0, a.head_p3] 0
      a.line_color a.line_style a.line_width "butt" "bevel" 1)
  else if a.head_style = "arrow" then
    polygonDraw (mkPolygonCore a.head_p0 [a.head_p1, a.head_p2, a.head_p3] 0
      a.line_color a.line_color "-" a.line_width "butt" "bevel" a.opacity)
  else ⟨[], none⟩

/-- Embeds `shapes.Arrow.draw`.  No top-level save/restore: the shaft is drawn
and painted directly, then the head branch (`headDraw`) runs, then a
final fill-only `paint_paths` call.  A raised error propagates with the
calls performed so far. -/
def arrowDraw (a : ArrowShape) : DrawResult :=
  let shaft : List SurfaceOp :=
    [SurfaceOp.moveTo a.origin.1 a.origin.2,
     SurfaceOp.lineTo (a.origin.1 + a.vector.1) (a.origin.2 + a.vector.2)]
  let p1 := paint_paths none a.line_color a.line_width a.line_style
    "butt" "mitter" a.opacity
  match p1.err with
  | some e => ⟨shaft ++ p1.ops, some e⟩
  | none =>
    let headRes : DrawResult := headDraw a
    match headRes.err with
    | some e => ⟨shaft ++ p1.ops ++ headRes.ops, some e⟩
    | none =>
      let p2 := paint_paths a.line_color none a.line_width "-"
        "butt" "mitter" a.opacity
      match p2.err with
      | some e => ⟨shaft ++ p1.ops ++ headRes.ops ++ p2.ops, some e⟩
      | none => ⟨shaft ++ p1.ops ++ headRes.ops ++ p2.ops, none⟩

/-- Embeds `shapes.RoundedRectangle.__init__` stored fields. -/
structure RoundedRectangleShape where
  position : ℚ × ℚ
  width : ℚ
  height : ℚ
  corner_radius : ℚ
  orientation : ℚ := 0
  line_color : Option String := some "black"
  line_width : ℚ := 1
  line_style : String := "-"
  line_cap : String := "butt"
  line_join : String := "mitter"
  fill_color : Option String := none
  opacity : ℚ := 1

/-- Embeds `shapes.RoundedRectangle.draw`: save, transform, then the closed
path `p1 → arc c1 → p3 → arc c2 → p5 → arc c3 → p7 → arc c4 → close`,
each corner arc sweeping a quarter turn (recorded in units of π), then
`paint_paths`. -/
def roundedRectangleDraw (s : RoundedRectangleShape) : DrawResult :=
  let p0 := s.position
  let w2 := s.width / 2
  let h2 := s.height / 2
  let cr := s.corner_radius
  finishDraw
    ([SurfaceOp.save,
      SurfaceOp.transform s.orientation p0.1 p0.2,
      SurfaceOp.moveTo (p0.1 + w2) (p0.2 + (h2 - cr)),
      SurfaceOp.arc (p0.1 + (w2 - cr)) (p0.2 + (h2 - cr)) cr 0 (1 / 2),
      SurfaceOp.lineTo (p0.1 + (-w2 + cr)) (p0.2 + h2),
      SurfaceOp.arc (p0.1 + (-w2 + cr)) (p0.2 + (h2 - cr)) cr (1 / 2) 1,
      SurfaceOp.lineTo (p0.1 + -w2) (p0.2 + (-h2 + cr)),
      SurfaceOp.arc (p0.1 + (-w2 + cr)) (p0.2 + (-h2 + cr)) cr 1 (3 / 2),
      SurfaceOp.lineTo (p0.1 + (w2 - cr)) (p0.2 + -h2),
      SurfaceOp.arc (p0.1 + (w2 - cr)) (p0.2 + (-h2 + cr)) cr (3 / 2) 2,
      SurfaceOp.closePath])
    (paint_paths s.fill_color s.line_color s.line_width s.line_style
      s.line_cap s.line_join s.opacity)

/- ============================================================ -/
/- Part 4: shapes.py — RegularPolygon and Star vertex generation -/
/- ============================================================ -/

/-- The list `[start, start + step, ..., start + (count-1)·step]`. -/
def arangeList (start step : ℝ) (count : ℕ) : List ℝ :=
  (List.range count).map (fun k : ℕ => start + (k : ℝ) * step)

/-- Embeds `np.arange(start, stop, step)` in exact arithmetic (positive step):
`⌈(stop - start) / step⌉` evenly spaced values from `start`. -/
noncomputable def arange (start stop step : ℝ) : List ℝ :=
  arangeList start step ⌈(stop - start) / step⌉₊

/-- The angle array of `RegularPolygon.__init__`:
`np.arange(0, 2π, 2π/n_faces)`. -/
noncomputable def regularPolygonAngles (n : ℕ) : List ℝ :=
  arange 0 (2 * Real.pi) (2 * Real.pi / n)

/-- The vertex array of `RegularPolygon.__init__`:
`x = radius·cos(angles) + position[0]`, `y = radius·sin(angles) +
position[1]`, transposed into a point list. -/
noncomputable def regularPolygonPoints (n : ℕ) (radius px py : ℝ) : List (ℝ × ℝ) :=
  (regularPolygonAngles n).map
    (fun a => (radius * Real.cos a + px, radius * Real.sin a + py))

/-- Pairwise interleaving of two lists, the `for i in
range(len(external_angles)): points.append(ext[i]); points.append(int[i])`
loop of `Star.__init__` (the two arrays are proved below to have the
same length, so index-wise pairing is exact). -/
def interleave : List α → List α → List α
  | x :: xs, y :: ys => x :: y :: interleave xs ys
  | _, _ => []

/-- The vertex array of `Star.__init__`: outer vertices at angles
`np.arange(0, 2π, δ)` on the external radius, inner vertices at angles
`np.arange(δ/2, 2π, δ)` on the internal radius, interleaved
outer-inner, where `δ = 2π/n_points` (the source's local
`delta_angle`, written out). -/
noncomputable def starPoints (n : ℕ) (rext rint px py : ℝ) : List (ℝ × ℝ) :=
  interleave
    ((arange 0 (2 * Real.pi) (2 * Real.pi / n)).map
      (fun a => (rext * Real.cos a + px, rext * Real.sin a + py)))
    ((arange ((2 * Real.pi / n) / 2) (2 * Real.pi) (2 * Real.pi / n)).map
      (fun a => (rint * Real.cos a + px, rint * Real.sin a + py)))

/- ============================================================ -/
/- Part 5: concrete instances used by counterexamples/witnesses -/
/- ============================================================ -/

/-- A circle whose `line_style` is not a `LINE_STYLES` key. -/
def badStyleCircle : CircleShape :=
  { radius := 100, position := (500, 500), orientation := 0,
    line_color := some "black", line_width := 1, line_style := "x",
    fill_color := none, opacity := 1 }

/-- An arrow with an unknown `head_style` and an invalid `line_style`
(vector `(3,4)`, length `5`). -/
def badStyleArrow : ArrowShape :=
  mkArrow (0, 0) (3, 4) 5 "none" (1 / 10) (1 / 10) none
    (some "black") "xx" 1 1

/-- An arrow with an unknown `head_style` and valid line options. -/
def plainHeadArrow : ArrowShape :=
  mkArrow (0, 0) (3, 4) 5 "none" (1 / 10) (1 / 10) none
    (some "black") "-" 1 1

/- ============================================================ -/
/- Part 6: helper lemmas                                        -/
/- ============================================================ -/

theorem paint_paths_err_ops (fc lc : Option String) (w : ℚ)
    (ls lcap lj : String) (op : ℚ) :
    (paint_paths fc lc w ls lcap lj op).err.isSome →
    (paint_paths fc lc w ls lcap lj op).ops = [] := by
  unfold paint_paths
  split_ifs <;> simp

theorem paint_paths_err_none_iff (fc lc : Option String) (w : ℚ)
    (ls lcap lj : String) (op : ℚ) :
    (paint_paths fc lc w ls lcap lj op).err = none ↔
      ls ∈ styleKeys ∧ lcap ∈ capKeys ∧ lj ∈ joinKeys := by
  unfold paint_paths
  split_ifs with h1 h2 h3 <;> simp_all

theorem paint_paths_valid (fc lc : Option String) (w : ℚ)
    (ls lcap lj : String) (op : ℚ) (h1 : ls ∈ styleKeys)
    (h2 : lcap ∈ capKeys) (h3 : lj ∈ joinKeys) :
    paint_paths fc lc w ls lcap lj op =
      ⟨fillOps fc op ++ strokeOps lc w ls lcap lj op, none⟩ := by
  unfold paint_paths
  rw [if_neg (by simpa using h1), if_neg (by simpa using h2),
    if_neg (by simpa using h3)]

theorem paint_ops_no_save_restore (fc lc : Option String) (w : ℚ)
    (ls lcap lj : String) (op : ℚ) :
    SurfaceOp.save ∉ (paint_paths fc lc w ls lcap lj op).ops ∧
    SurfaceOp.restore ∉ (paint_paths fc lc w ls lcap lj op).ops := by
  unfold paint_paths
  split_ifs <;> cases fc <;> cases lc <;> simp [fillOps, strokeOps]

theorem paint_ops_no_path (fc lc : Option String) (w : ℚ)
    (ls lcap lj : String) (op : ℚ) :
    ((paint_paths fc lc w ls lcap lj op).ops).filter (fun o => isPathConOp o) = [] := by
  unfold paint_paths
  split_ifs <;> cases fc <;> cases lc <;> simp [fillOps, strokeOps, isPathConOp]

theorem finishDraw_err (pre : List SurfaceOp) (p : DrawResult) :
    (finishDraw pre p).err = p.err := by
  cases h : p.err <;> simp [finishDraw, h]

theorem finishDraw_ops_err (pre : List SurfaceOp) (p : DrawResult)
    (h : p.err.isSome) : (finishDraw pre p).ops = pre ++ p.ops := by
  cases he : p.err with
  | none => rw [he] at h; simp at h
  | some e => simp [finishDraw, he]

theorem finishDraw_ops_ok (pre : List SurfaceOp) (p : DrawResult)
    (h : p.err = none) :
    (finishDraw pre p).ops = pre ++ p.ops ++ [SurfaceOp.restore] := by
  simp [finishDraw, h]

theorem polyPathOps_filter_paint (pts : List (ℚ × ℚ)) :
    (polyPathOps pts).filter (fun o => isPaintOp o) = [] := by
  cases pts with
  | nil => rfl
  | cons q qs =>
    have h : ∀ l : List (ℚ × ℚ),
        (l.map (fun r => SurfaceOp.lineTo r.1 r.2)).filter (fun o => isPaintOp o) = [] := by
      intro l
      induction l with
      | nil => rfl
      | cons a as ih => simpa [isPaintOp] using ih
    simpa [polyPathOps, isPaintOp] using h qs

theorem polyPathOps_no_save_restore (pts : List (ℚ × ℚ)) :
    SurfaceOp.save ∉ polyPathOps pts ∧ SurfaceOp.restore ∉ polyPathOps pts := by
  cases pts with
  | nil => simp [polyPathOps]
  | cons q qs => simp [polyPathOps]

theorem paint_ops_count_save_restore (fc lc : Option String) (w : ℚ)
    (ls lcap lj : String) (op : ℚ) :
    ((paint_paths fc lc w ls lcap lj op).ops).count SurfaceOp.save = 0 ∧
    ((paint_paths fc lc w ls lcap lj op).ops).count SurfaceOp.restore = 0 :=
  ⟨List.count_eq_zero.mpr (paint_ops_no_save_restore fc lc w ls lcap lj op).1,
   List.count_eq_zero.mpr (paint_ops_no_save_restore fc lc w ls lcap lj op).2⟩

theorem finishDraw_balance (pre : List SurfaceOp) (fc lc : Option String)
    (w : ℚ) (ls lcap lj : String) (op : ℚ)
    (hs : pre.count SurfaceOp.save = 1) (hr : pre.count SurfaceOp.restore = 0) :
    ((finishDraw pre (paint_paths fc lc w ls lcap lj op)).err = none →
      ((finishDraw pre (paint_paths fc lc w ls lcap lj op)).ops).count SurfaceOp.save =
        ((finishDraw pre (paint_paths fc lc w ls lcap lj op)).ops).count SurfaceOp.restore) ∧
    ((finishDraw pre (paint_paths fc lc w ls lcap lj op)).err.isSome →
      ((finishDraw pre (paint_paths fc lc w ls lcap lj op)).ops).count SurfaceOp.save =
        ((finishDraw pre (paint_paths fc lc w ls lcap lj op)).ops).count SurfaceOp.restore + 1) := by
  have hps := (paint_ops_count_save_restore fc lc w ls lcap lj op).1
  have hpr := (paint_ops_count_save_restore fc lc w ls lcap lj op).2
  constructor
  · intro h
    rw [finishDraw_ops_ok _ _ (by rw [← finishDraw_err pre]; exact h)]
    simp [List.count_append, hs, hr, hps, hpr, List.count_cons]
  · intro h
    rw [finishDraw_ops_err _ _ (by rw [← finishDraw_err pre]; exact h)]
    simp [List.count_append, hs, hr, hps, hpr]

theorem polyPathOps_count_save_restore (pts : List (ℚ × ℚ)) :
    (polyPathOps pts).count SurfaceOp.save = 0 ∧
    (polyPathOps pts).count SurfaceOp.restore = 0 :=
  ⟨List.count_eq_zero.mpr (polyPathOps_no_save_restore pts).1,
   List.count_eq_zero.mpr (polyPathOps_no_save_restore pts).2⟩

theorem headDraw_err_none (a : ArrowShape) (hls : a.line_style ∈ styleKeys) :
    (headDraw a).err = none := by
  unfold headDraw polygonDraw linesDraw
  split_ifs <;>
    first
    | rfl
    | (rw [finishDraw_err, paint_paths_err_none_iff]
       simp only [mkPolygonCore, mkLinesCore]
       exact ⟨by first | exact hls | decide, by decide, by decide⟩)

theorem arrowDraw_err_eq (a : ArrowShape) :
    (arrowDraw a).err =
      (paint_paths none a.line_color a.line_width a.line_style "butt" "mitter"
        a.opacity).err := by
  unfold arrowDraw
  cases h1 : (paint_paths none a.line_color a.line_width a.line_style "butt"
      "mitter" a.opacity).err with
  | some e => simp [h1]
  | none =>
    have hls : a.line_style ∈ styleKeys :=
      ((paint_paths_err_none_iff _ _ _ _ _ _ _).mp h1).1
    have hh := headDraw_err_none a hls
    have hp2 : (paint_paths a.line_color none a.line_width "-" "butt" "mitter"
        a.opacity).err = none :=
      (paint_paths_err_none_iff _ _ _ _ _ _ _).mpr ⟨by decide, by decide, by decide⟩
    simp [h1, hh, hp2]

theorem arrowDraw_ops_err (a : ArrowShape) (h : (arrowDraw a).err.isSome) :
    (arrowDraw a).ops =
      [SurfaceOp.moveTo a.origin.1 a.origin.2,
       SurfaceOp.lineTo (a.origin.1 + a.vector.1) (a.origin.2 + a.vector.2)] := by
  rw [arrowDraw_err_eq] at h
  unfold arrowDraw
  cases h1 : (paint_paths none a.line_color a.line_width a.line_style "butt"
      "mitter" a.opacity).err with
  | none => rw [h1] at h; simp at h
  | some e =>
    have hops := paint_paths_err_ops none a.line_color a.line_width a.line_style
      "butt" "mitter" a.opacity (by simp [h1])
    simp [h1, hops]

theorem finishDraw_paint_filter (pre : List SurfaceOp) (fc lc : Option String)
    (w : ℚ) (ls lcap lj : String) (op : ℚ)
    (hpre : pre.filter (fun o => isPaintOp o) = [])
    (h : (finishDraw pre (paint_paths fc lc w ls lcap lj op)).err.isSome) :
    ((finishDraw pre (paint_paths fc lc w ls lcap lj op)).ops).filter
      (fun o => isPaintOp o) = [] := by
  rw [finishDraw_err] at h
  rw [finishDraw_ops_err _ _ h, paint_paths_err_ops _ _ _ _ _ _ _ h]
  simp [List.filter_append, hpre]

theorem headDraw_balance (a : ArrowShape) (hls : a.line_style ∈ styleKeys) :
    ((headDraw a).ops).count SurfaceOp.save =
      ((headDraw a).ops).count SurfaceOp.restore := by
  unfold headDraw polygonDraw linesDraw
  split_ifs
  · refine (finishDraw_balance _ _ _ _ _ _ _ _ ?_ ?_).1 ?_
    · simp [List.count_append, List.count_cons, (polyPathOps_count_save_restore _).1]
    · simp [List.count_append, List.count_cons, (polyPathOps_count_save_restore _).2]
    · rw [finishDraw_err, paint_paths_err_none_iff]
      simp only [mkPolygonCore]
      exact ⟨by decide, by decide, by decide⟩
  · refine (finishDraw_balance _ _ _ _ _ _ _ _ ?_ ?_).1 ?_
    · simp [List.count_append, List.count_cons, (polyPathOps_count_save_restore _).1]
    · simp [List.count_append, List.count_cons, (polyPathOps_count_save_restore _).2]
    · rw [finishDraw_err, paint_paths_err_none_iff]
      simp only [mkLinesCore]
      exact ⟨hls, by decide, by decide⟩
  · refine (finishDraw_balance _ _ _ _ _ _ _ _ ?_ ?_).1 ?_
    · simp [List.count_append, List.count_cons, (polyPathOps_count_save_restore _).1]
    · simp [List.count_append, List.count_cons, (polyPathOps_count_save_restore _).2]
    · rw [finishDraw_err, paint_paths_err_none_iff]
      simp only [mkPolygonCore]
      exact ⟨by decide, by decide, by decide⟩
  · rfl

theorem arrowDraw_balance (a : ArrowShape) :
    ((arrowDraw a).ops).count SurfaceOp.save =
      ((arrowDraw a).ops).count SurfaceOp.restore := by
  cases h1 : (paint_paths none a.line_color a.line_width a.line_style "butt"
      "mitter" a.opacity).err with
  | some e =>
    have h : (arrowDraw a).err.isSome := by rw [arrowDraw_err_eq, h1]; rfl
    rw [arrowDraw_ops_err a h]
    simp [List.count_cons]
  | none =>
    have hls : a.line_style ∈ styleKeys :=
      ((paint_paths_err_none_iff _ _ _ _ _ _ _).mp h1).1
    have hh := headDraw_err_none a hls
    have hp2 : (paint_paths a.line_color none a.line_width "-" "butt" "mitter"
        a.opacity).err = none :=
      (paint_paths_err_none_iff _ _ _ _ _ _ _).mpr ⟨by decide, by decide, by decide⟩
    unfold arrowDraw
    simp only [h1, hh, hp2]
    simp [List.count_append, List.count_cons,
      (paint_ops_count_save_restore _ _ _ _ _ _ _).1,
      (paint_ops_count_save_restore _ _ _ _ _ _ _).2,
      headDraw_balance a hls]

/- ============================================================ -/
/- Part 7: the claims                                           -/
/- ============================================================ -/

/-- C1: for every angle `θ` and pivot `P = (px, py)`, the transform
built by `rotate_around_point(θ, P)` (the composition
`Translate(+P) ∘ Rotate(θ) ∘ Translate(−P)` converted to cairo form)
maps every point `Q` to `P + rotate(Q − P)` by `θ`, and in particular
maps the pivot `P` to itself. -/
theorem rotate_around_point_action (θ px py qx qy : ℝ) :
    applyCairo (rotate_around_point θ px py) qx qy =
      (px + (rotatePt θ (qx - px) (qy - py)).1,
       py + (rotatePt θ (qx - px) (qy - py)).2) ∧
    applyCairo (rotate_around_point θ px py) px py = (px, py) := by
  constructor <;>
  · simp only [applyCairo, rotate_around_point, cairo_matrix, matMul,
      rotation_matrix, translation_matrix, rotatePt, Prod.mk.injEq]
    constructor <;> ring

/-- C2, counterexample: a `Circle` whose `line_style` is invalid does
raise the style error, but the recorded trace is *not* empty — the
`save`, `transform` and `arc` calls have already hit the surface when
the dispatcher raises. -/
theorem circle_invalid_style_mutates_before_error :
    (circleDraw badStyleCircle).err.isSome = true ∧
    (circleDraw badStyleCircle).ops =
      [SurfaceOp.save, SurfaceOp.transform 0 500 500,
       SurfaceOp.arc 500 500 100 0 2] := by
  decide

/-- C2, amended: when a shape's draw call raises the style error, the
error fires before any *paint* call (no source/fill/stroke/style-state
call is recorded), though the `save`/`transform`/path-construction
calls of that draw have already occurred. -/
theorem invalid_style_error_precedes_paint_ops :
    (∀ s : CircleShape, (circleDraw s).err.isSome →
      ((circleDraw s).ops).filter (fun o => isPaintOp o) = []) ∧
    (∀ s : RectangleShape, (rectangleDraw s).err.isSome →
      ((rectangleDraw s).ops).filter (fun o => isPaintOp o) = []) ∧
    (∀ s : LinesShape, (linesDraw s).err.isSome →
      ((linesDraw s).ops).filter (fun o => isPaintOp o) = []) ∧
    (∀ s : PolygonShape, (polygonDraw s).err.isSome →
      ((polygonDraw s).ops).filter (fun o => isPaintOp o) = []) ∧
    (∀ s : RoundedRectangleShape, (roundedRectangleDraw s).err.isSome →
      ((roundedRectangleDraw s).ops).filter (fun o => isPaintOp o) = []) ∧
    (∀ a : ArrowShape, (arrowDraw a).err.isSome →
      ((arrowDraw a).ops).filter (fun o => isPaintOp o) = []) := by
  refine ⟨?_, ?_, ?_, ?_, ?_, ?_⟩
  · intro s h
    exact finishDraw_paint_filter _ _ _ _ _ _ _ _ (by simp [isPaintOp]) h
  · intro s h
    exact finishDraw_paint_filter _ _ _ _ _ _ _ _ (by simp [isPaintOp]) h
  · intro s h
    refine finishDraw_paint_filter _ _ _ _ _ _ _ _ ?_ h
    rw [List.filter_append, polyPathOps_filter_paint]
    simp [isPaintOp]
  · intro s h
    refine finishDraw_paint_filter _ _ _ _ _ _ _ _ ?_ h
    rw [List.filter_append, List.filter_append, polyPathOps_filter_paint]
    simp [isPaintOp]
  · intro s h
    exact finishDraw_paint_filter _ _ _ _ _ _ _ _ (by simp [isPaintOp]) h
  · intro a h
    rw [arrowDraw_ops_err a h]
    simp [isPaintOp]

/-- C2, witness for the amended theorem at a concrete input. -/
theorem invalid_style_error_precedes_paint_ops_witness :
    (circleDraw badStyleCircle).err.isSome = true ∧
    ((circleDraw badStyleCircle).ops).filter (fun o => isPaintOp o) = [] :=
  ⟨by decide, invalid_style_error_precedes_paint_ops.1 badStyleCircle (by decide)⟩

/-- C3, counterexample: a `Circle` draw aborted by an invalid
`line_style` records its `save` but never a `restore` — the source's
bare `save`/`restore` pair is not exception-safe, so the error leaves
one unmatched `save` on the surface stack. -/
theorem circle_invalid_style_unbalanced_save :
    (circleDraw badStyleCircle).err.isSome = true ∧
    ((circleDraw badStyleCircle).ops).count SurfaceOp.save = 1 ∧
    ((circleDraw badStyleCircle).ops).count SurfaceOp.restore = 0 := by
  decide

/-- C3, amended: on an error-free draw every `save` is matched by a
`restore`; when the style error aborts a draw, the save-bracketed
shapes are left with exactly one unmatched `save` (`Arrow.draw`
performs no top-level save and its trace stays balanced in both
cases, its nested head draws completing normally). -/
theorem save_restore_balance :
    (∀ s : CircleShape,
      ((circleDraw s).err = none →
        ((circleDraw s).ops).count SurfaceOp.save =
          ((circleDraw s).ops).count SurfaceOp.restore) ∧
      ((circleDraw s).err.isSome →
        ((circleDraw s).ops).count SurfaceOp.save =
          ((circleDraw s).ops).count SurfaceOp.restore + 1)) ∧
    (∀ s : RectangleShape,
      ((rectangleDraw s).err = none →
        ((rectangleDraw s).ops).count SurfaceOp.save =
          ((rectangleDraw s).ops).count SurfaceOp.restore) ∧
      ((rectangleDraw s).err.isSome →
        ((rectangleDraw s).ops).count SurfaceOp.save =
          ((rectangleDraw s).ops).count SurfaceOp.restore + 1)) ∧
    (∀ s : LinesShape,
      ((linesDraw s).err = none →
        ((linesDraw s).ops).count SurfaceOp.save =
          ((linesDraw s).ops).count SurfaceOp.restore) ∧
      ((linesDraw s).err.isSome →
        ((linesDraw s).ops).count SurfaceOp.save =
          ((linesDraw s).ops).count SurfaceOp.restore + 1)) ∧
    (∀ s : PolygonShape,
      ((polygonDraw s).err = none →
        ((polygonDraw s).ops).count SurfaceOp.save =
          ((polygonDraw s).ops).count SurfaceOp.restore) ∧
      ((polygonDraw s).err.isSome →
        ((polygonDraw s).ops).count SurfaceOp.save =
          ((polygonDraw s).ops).count SurfaceOp.restore + 1)) ∧
    (∀ s : RoundedRectangleShape,
      ((roundedRectangleDraw s).err = none →
        ((roundedRectangleDraw s).ops).count SurfaceOp.save =
          ((roundedRectangleDraw s).ops).count SurfaceOp.restore) ∧
      ((roundedRectangleDraw s).err.isSome →
        ((roundedRectangleDraw s).ops).count SurfaceOp.save =
          ((roundedRectangleDraw s).ops).count SurfaceOp.restore + 1)) ∧
    (∀ a : ArrowShape,
      ((arrowDraw a).ops).count SurfaceOp.save =
        ((arrowDraw a).ops).count SurfaceOp.restore) := by
  refine ⟨?_, ?_, ?_, ?_, ?_, arrowDraw_balance⟩
  · intro s
    exact finishDraw_balance _ _ _ _ _ _ _ _
      (by simp [List.count_cons]) (by simp [List.count_cons])
  · intro s
    exact finishDraw_balance _ _ _ _ _ _ _ _
      (by simp [List.count_cons]) (by simp [List.count_cons])
  · intro s
    exact finishDraw_balance _ _ _ _ _ _ _ _
      (by simp [List.count_append, List.count_cons,
        (polyPathOps_count_save_restore _).1])
      (by simp [List.count_append, List.count_cons,
        (polyPathOps_count_save_restore _).2])
  · intro s
    exact finishDraw_balance _ _ _ _ _ _ _ _
      (by simp [List.count_append, List.count_cons,
        (polyPathOps_count_save_restore _).1])
      (by simp [List.count_append, List.count_cons,
        (polyPathOps_count_save_restore _).2])
  · intro s
    exact finishDraw_balance _ _ _ _ _ _ _ _
      (by simp [List.count_cons]) (by simp [List.count_cons])

/-- C3, witness for the amended theorem at a concrete input. -/
theorem save_restore_balance_witness :
    (circleDraw badStyleCircle).err.isSome = true ∧
    ((circleDraw badStyleCircle).ops).count SurfaceOp.save =
      ((circleDraw badStyleCircle).ops).count SurfaceOp.restore + 1 :=
  ⟨by decide, (save_restore_balance.1 badStyleCircle).2 (by decide)⟩

/-- C4, counterexample: the spelling `"miter"` is rejected by the paint
dispatcher (the source's `LINE_JOINS` key is `"mitter"`), and the error
it raises interpolates the `LINE_CAPS` key list, not the line-join
keys. -/
theorem line_join_miter_rejected :
    (paint_paths none (some "black") 1 "-" "butt" "miter" 1).err =
      some ⟨"line joints", ["square", "round", "butt"]⟩ := by
  decide

/-- C4, amended: with valid `line_style` and `line_cap`, the dispatcher
accepts exactly the line joins `{bevel, round, mitter}` (the source's
spelling); any non-member raises, before any surface call, an error
that names the line joints but lists the *line cap* key set
`{square, round, butt}`. -/
theorem line_join_validation_spec (fc lc : Option String) (w : ℚ)
    (ls lcap lj : String) (op : ℚ) (hls : ls ∈ styleKeys)
    (hlc : lcap ∈ capKeys) :
    ((paint_paths fc lc w ls lcap lj op).err = none ↔
      lj ∈ (["bevel", "round", "mitter"] : List String)) ∧
    (lj ∉ (["bevel", "round", "mitter"] : List String) →
      paint_paths fc lc w ls lcap lj op =
        ⟨[], some ⟨"line joints", ["square", "round", "butt"]⟩⟩) := by
  have hj : joinKeys = ["bevel", "round", "mitter"] := rfl
  constructor
  · rw [paint_paths_err_none_iff, hj]
    simp [hls, hlc]
  · intro hnot
    unfold paint_paths
    rw [if_neg (not_not_intro hls), if_neg (not_not_intro hlc),
      if_pos (by rw [hj]; exact hnot)]
    rfl

/-- C4, witness for the amended theorem at a concrete input. -/
theorem line_join_validation_spec_witness :
    ("-" ∈ styleKeys ∧ "butt" ∈ capKeys) ∧
    (((paint_paths none none 1 "-" "butt" "x" 1).err = none ↔
      "x" ∈ (["bevel", "round", "mitter"] : List String)) ∧
    ("x" ∉ (["bevel", "round", "mitter"] : List String) →
      paint_paths none none 1 "-" "butt" "x" 1 =
        ⟨[], some ⟨"line joints", ["square", "round", "butt"]⟩⟩)) :=
  ⟨⟨by decide, by decide⟩,
   line_join_validation_spec none none 1 "-" "butt" "x" 1 (by decide) (by decide)⟩

/-- C9, counterexample: an `Arrow` whose `head_style` is unknown but
whose `line_style` is also invalid raises the style error from the
shaft's paint call — the original claim promised no error for every
arrow with an unknown head style. -/
theorem arrow_unknown_head_invalid_style_raises :
    (arrowDraw badStyleArrow).err =
      some ⟨"line styles", ["--", "-", ".", "-."]⟩ := by
  decide

/-- C9, amended: for an `Arrow` whose `head_style` is none of
`triangle`/`stroke`/`arrow`, whose `line_style` is legal and whose
`line_color` is set, `draw` raises no error, constructs exactly the
shaft path (`move_to origin`, `line_to origin+vector`, no arrowhead
geometry), and strokes exactly once. -/
theorem arrow_unknown_head_draws_shaft_only (a : ArrowShape)
    (hhead : a.head_style ∉ (["triangle", "stroke", "arrow"] : List String))
    (hls : a.line_style ∈ styleKeys) (hlc : a.line_color.isSome) :
    (arrowDraw a).err = none ∧
    ((arrowDraw a).ops).filter (fun o => isPathConOp o) =
      [SurfaceOp.moveTo a.origin.1 a.origin.2,
       SurfaceOp.lineTo (a.origin.1 + a.vector.1) (a.origin.2 + a.vector.2)] ∧
    ((arrowDraw a).ops).count SurfaceOp.stroke = 1 := by
  obtain ⟨c, hc⟩ := Option.isSome_iff_exists.mp hlc
  have h1 : a.head_style ≠ "triangle" := fun h => hhead (by rw [h]; decide)
  have h2 : a.head_style ≠ "stroke" := fun h => hhead (by rw [h]; decide)
  have h3 : a.head_style ≠ "arrow" := fun h => hhead (by rw [h]; decide)
  have hp1err : (paint_paths none a.line_color a.line_width a.line_style
      "butt" "mitter" a.opacity).err = none :=
    (paint_paths_err_none_iff _ _ _ _ _ _ _).mpr ⟨hls, by decide, by decide⟩
  have hp1ops : (paint_paths none a.line_color a.line_width a.line_style
      "butt" "mitter" a.opacity).ops =
      strokeOps a.line_color a.line_width a.line_style "butt" "mitter"
        a.opacity := by
    rw [paint_paths_valid _ _ _ _ _ _ _ hls (by decide) (by decide)]
    simp [fillOps]
  have hhd : headDraw a = ⟨[], none⟩ := by
    unfold headDraw
    rw [if_neg h1, if_neg h2, if_neg h3]
  have hp2 : paint_paths a.line_color none a.line_width "-" "butt" "mitter"
      a.opacity = ⟨fillOps a.line_color a.opacity, none⟩ := by
    rw [paint_paths_valid _ _ _ _ _ _ _ (by decide) (by decide) (by decide)]
    simp [strokeOps]
  unfold arrowDraw
  simp only [hp1err, hp1ops, hhd, hp2]
  rw [hc]
  refine ⟨trivial, ?_, ?_⟩
  · simp [strokeOps, fillOps, isPathConOp]
  · simp [strokeOps, fillOps, List.count_cons]

/-- C9, witness for the amended theorem at a concrete input. -/
theorem arrow_unknown_head_draws_shaft_only_witness :
    (plainHeadArrow.head_style ∉ (["triangle", "stroke", "arrow"] : List String) ∧
      plainHeadArrow.line_style ∈ styleKeys ∧
      plainHeadArrow.line_color.isSome = true) ∧
    ((arrowDraw plainHeadArrow).err = none ∧
    ((arrowDraw plainHeadArrow).ops).filter (fun o => isPathConOp o) =
      [SurfaceOp.moveTo plainHeadArrow.origin.1 plainHeadArrow.origin.2,
       SurfaceOp.lineTo (plainHeadArrow.origin.1 + plainHeadArrow.vector.1)
         (plainHeadArrow.origin.2 + plainHeadArrow.vector.2)] ∧
    ((arrowDraw plainHeadArrow).ops).count SurfaceOp.stroke = 1) :=
  ⟨⟨by decide, by decide, by decide⟩,
   arrow_unknown_head_draws_shaft_only plainHeadArrow (by decide) (by decide)
     (by decide)⟩

/-- C5: the `min_head_length` clamping of `Arrow.__init__`.  With
`L = |vector| > 0` and a positive requested `head_length`: if
`L < min_head_length` the effective head_length is `1` (the head spans
the full shaft) and the width preserves the requested
width-to-length aspect ratio; otherwise if `head_length·L <
min_head_length`, head_length is rescaled to `min_head_length / L` and
the width by the same factor, again preserving the aspect ratio. -/
theorem arrow_min_head_length_clamp (o v : ℚ × ℚ) (L hl hw m : ℚ)
    (hs : String) (lc : Option String) (ls : String) (lw op : ℚ)
    (hL : 0 < L) (hhl : 0 < hl) :
    (L < m →
      (mkArrow o v L hs hl hw (some m) lc ls lw op).head_length = 1 ∧
      (mkArrow o v L hs hl hw (some m) lc ls lw op).head_width = hw / hl ∧
      (mkArrow o v L hs hl hw (some m) lc ls lw op).head_width /
        (mkArrow o v L hs hl hw (some m) lc ls lw op).head_length = hw / hl) ∧
    (m ≤ L → hl * L < m →
      (mkArrow o v L hs hl hw (some m) lc ls lw op).head_length = m / L ∧
      (mkArrow o v L hs hl hw (some m) lc ls lw op).head_width =
        (hw / hl) * (m / L) ∧
      (mkArrow o v L hs hl hw (some m) lc ls lw op).head_width /
        (mkArrow o v L hs hl hw (some m) lc ls lw op).head_length = hw / hl) := by
  constructor
  · intro hlt
    have hm : m ≠ 0 := (lt_trans hL hlt).ne'
    simp only [mkArrow, arrowHeadClamp]
    rw [if_pos hm, if_pos hlt]
    exact ⟨rfl, rfl, by simp⟩
  · intro hge hlt2
    have hm0 : (0 : ℚ) < m := lt_of_le_of_lt (le_of_lt (mul_pos hhl hL)) hlt2
    have hm : m ≠ 0 := hm0.ne'
    have hml : m / L ≠ 0 := div_ne_zero hm hL.ne'
    simp only [mkArrow, arrowHeadClamp]
    rw [if_pos hm, if_neg (not_lt.mpr hge), if_pos hlt2]
    refine ⟨rfl, rfl, ?_⟩
    show (hw / hl) * (m / L) / (m / L) = hw / hl
    rw [mul_div_assoc, div_self hml, mul_one]

/-- C5, witness for the clamping theorem at a concrete input
(vector `(3,4)`, length `5`, `min_head_length = 6 > 5`). -/
theorem arrow_min_head_length_clamp_witness :
    ((0 : ℚ) < 5 ∧ (0 : ℚ) < 1 / 10 ∧ (5 : ℚ) < 6) ∧
    (mkArrow (0, 0) (3, 4) 5 "triangle" (1 / 10) (1 / 5) (some 6)
      (some "black") "-" 1 1).head_length = 1 ∧
    (mkArrow (0, 0) (3, 4) 5 "triangle" (1 / 10) (1 / 5) (some 6)
      (some "black") "-" 1 1).head_width = (1 / 5 : ℚ) / (1 / 10) :=
  ⟨⟨by norm_num, by norm_num, by norm_num⟩,
   ((arrow_min_head_length_clamp (0, 0) (3, 4) 5 (1 / 10) (1 / 5) 6 "triangle"
      (some "black") "-" 1 1 (by norm_num) (by norm_num)).1 (by norm_num)).1,
   ((arrow_min_head_length_clamp (0, 0) (3, 4) 5 (1 / 10) (1 / 5) 6 "triangle"
      (some "black") "-" 1 1 (by norm_num) (by norm_num)).1 (by norm_num)).2.1⟩

/-- C10: `Lines` and `Polygon` construction succeeds exactly on
non-empty point lists (`np.max`/`np.min` over the coordinate columns
fail on an empty array); on every non-empty list the bounding-box
fields and the derived pivot are defined. -/
theorem lines_polygon_nonempty_required (pts : List (ℚ × ℚ)) (o lw op : ℚ)
    (fc lc : Option String) (ls lcap lj : String) :
    ((mkLines pts o lc ls lw lcap lj op).isSome ↔ pts ≠ []) ∧
    ((mkPolygon pts o fc lc ls lw lcap lj op).isSome ↔ pts ≠ []) := by
  cases pts <;> simp [mkLines, mkPolygon]

theorem foldl_max_le_init (a : ℚ) (l : List ℚ) : a ≤ l.foldl max a := by
  induction l generalizing a with
  | nil => exact le_refl a
  | cons x xs ih => exact le_trans (le_max_left a x) (ih (max a x))

theorem foldl_max_mem (a : ℚ) (l : List ℚ) : l.foldl max a ∈ a :: l := by
  induction l generalizing a with
  | nil => simp
  | cons x xs ih =>
    simp only [List.foldl_cons]
    rcases List.mem_cons.mp (ih (max a x)) with h1 | h1
    · rcases max_choice a x with h2 | h2
      · rw [h1, h2]; exact List.mem_cons_self _ _
      · rw [h1, h2]; exact List.mem_cons_of_mem _ (List.mem_cons_self _ _)
    · exact List.mem_cons_of_mem _ (List.mem_cons_of_mem _ h1)

theorem le_foldl_max (a b : ℚ) (l : List ℚ) (h : b ∈ a :: l) :
    b ≤ l.foldl max a := by
  induction l generalizing a with
  | nil =>
    rw [List.mem_singleton.mp h]
    exact le_refl a
  | cons x xs ih =>
    simp only [List.foldl_cons]
    rcases List.mem_cons.mp h with h1 | h1
    · rw [h1]
      exact le_trans (le_max_left a x) (foldl_max_le_init _ xs)
    · rcases List.mem_cons.mp h1 with h2 | h2
      · rw [h2]
        exact le_trans (le_max_right a x) (foldl_max_le_init _ xs)
      · exact ih (max a x) (List.mem_cons_of_mem _ h2)

theorem foldl_min_init_le (a : ℚ) (l : List ℚ) : l.foldl min a ≤ a := by
  induction l generalizing a with
  | nil => exact le_refl a
  | cons x xs ih => exact le_trans (ih (min a x)) (min_le_left a x)

theorem foldl_min_mem (a : ℚ) (l : List ℚ) : l.foldl min a ∈ a :: l := by
  induction l generalizing a with
  | nil => simp
  | cons x xs ih =>
    simp only [List.foldl_cons]
    rcases List.mem_cons.mp (ih (min a x)) with h1 | h1
    · rcases min_choice a x with h2 | h2
      · rw [h1, h2]; exact List.mem_cons_self _ _
      · rw [h1, h2]; exact List.mem_cons_of_mem _ (List.mem_cons_self _ _)
    · exact List.mem_cons_of_mem _ (List.mem_cons_of_mem _ h1)

theorem foldl_min_le (a b : ℚ) (l : List ℚ) (h : b ∈ a :: l) :
    l.foldl min a ≤ b := by
  induction l generalizing a with
  | nil =>
    rw [List.mem_singleton.mp h]
    exact le_refl a
  | cons x xs ih =>
    simp only [List.foldl_cons]
    rcases List.mem_cons.mp h with h1 | h1
    · rw [h1]
      exact le_trans (foldl_min_init_le _ xs) (min_le_left a x)
    · rcases List.mem_cons.mp h1 with h2 | h2
      · rw [h2]
        exact le_trans (foldl_min_init_le _ xs) (min_le_right a x)
      · exact ih (min a x) (List.mem_cons_of_mem _ h2)

/-- C8: for `Lines` and `Polygon` the stored rotation pivot is exactly
`((max_x − min_x)/2, (max_y − min_y)/2)` — half the bounding-box span
— where `max_x`/`min_x`/`max_y`/`min_y` are the genuine maxima/minima
of the point coordinates; and on the sample point set
`[(1,1), (3,5)]` the pivot `(1,2)` differs from the bounding-box
centre/centroid `(2,3)` and from the minimum corner `(1,1)`. -/
theorem lines_polygon_pivot_half_span :
    (∀ (p0 : ℚ × ℚ) (ps : List (ℚ × ℚ)) (o lw op : ℚ) (lc : Option String)
        (ls lcap lj : String),
      let s := mkLinesCore p0 ps o lc ls lw lcap lj op
      (s.max_x ∈ s.points.map Prod.fst ∧
        ∀ c ∈ s.points.map Prod.fst, c ≤ s.max_x) ∧
      (s.min_x ∈ s.points.map Prod.fst ∧
        ∀ c ∈ s.points.map Prod.fst, s.min_x ≤ c) ∧
      (s.max_y ∈ s.points.map Prod.snd ∧
        ∀ c ∈ s.points.map Prod.snd, c ≤ s.max_y) ∧
      (s.min_y ∈ s.points.map Prod.snd ∧
        ∀ c ∈ s.points.map Prod.snd, s.min_y ≤ c) ∧
      s.position = ((s.max_x - s.min_x) / 2, (s.max_y - s.min_y) / 2)) ∧
    (∀ (p0 : ℚ × ℚ) (ps : List (ℚ × ℚ)) (o lw op : ℚ) (fc lc : Option String)
        (ls lcap lj : String),
      let s := mkPolygonCore p0 ps o fc lc ls lw lcap lj op
      (s.max_x ∈ s.points.map Prod.fst ∧
        ∀ c ∈ s.points.map Prod.fst, c ≤ s.max_x) ∧
      (s.min_x ∈ s.points.map Prod.fst ∧
        ∀ c ∈ s.points.map Prod.fst, s.min_x ≤ c) ∧
      (s.max_y ∈ s.points.map Prod.snd ∧
        ∀ c ∈ s.points.map Prod.snd, c ≤ s.max_y) ∧
      (s.min_y ∈ s.points.map Prod.snd ∧
        ∀ c ∈ s.points.map Prod.snd, s.min_y ≤ c) ∧
      s.position = ((s.max_x - s.min_x) / 2, (s.max_y - s.min_y) / 2)) ∧
    (mkLinesCore (1, 1) [(3, 5)] 0 none "-" 1 "butt" "bevel" 1).position =
      (1, 2) ∧
    (mkLinesCore (1, 1) [(3, 5)] 0 none "-" 1 "butt" "bevel" 1).position ≠
      (2, 3) ∧
    (mkLinesCore (1, 1) [(3, 5)] 0 none "-" 1 "butt" "bevel" 1).position ≠
      (1, 1) := by
  refine ⟨?_, ?_,
    by norm_num [mkLinesCore, List.foldl, max_def, min_def, Prod.ext_iff],
    by norm_num [mkLinesCore, List.foldl, max_def, min_def, Prod.ext_iff],
    by norm_num [mkLinesCore, List.foldl, max_def, min_def, Prod.ext_iff]⟩
  · intro p0 ps o lw op lc ls lcap lj
    exact ⟨⟨foldl_max_mem _ _, fun c hc => le_foldl_max _ c _ hc⟩,
      ⟨foldl_min_mem _ _, fun c hc => foldl_min_le _ c _ hc⟩,
      ⟨foldl_max_mem _ _, fun c hc => le_foldl_max _ c _ hc⟩,
      ⟨foldl_min_mem _ _, fun c hc => foldl_min_le _ c _ hc⟩, rfl⟩
  · intro p0 ps o lw op fc lc ls lcap lj
    exact ⟨⟨foldl_max_mem _ _, fun c hc => le_foldl_max _ c _ hc⟩,
      ⟨foldl_min_mem _ _, fun c hc => foldl_min_le _ c _ hc⟩,
      ⟨foldl_max_mem _ _, fun c hc => le_foldl_max _ c _ hc⟩,
      ⟨foldl_min_mem _ _, fun c hc => foldl_min_le _ c _ hc⟩, rfl⟩

/-- C8, witness: the pivot characterization applied to the sample point
set, with a concrete member of the coordinate list. -/
theorem lines_polygon_pivot_half_span_witness :
    ((3 : ℚ) ∈
      ((mkLinesCore (1, 1) [(3, 5)] 0 none "-" 1 "butt" "bevel" 1).points.map
        Prod.fst)) ∧
    (3 : ℚ) ≤ (mkLinesCore (1, 1) [(3, 5)] 0 none "-" 1 "butt" "bevel"
      1).max_x :=
  ⟨by decide,
   (lines_polygon_pivot_half_span.1 (1, 1) [(3, 5)] 0 1 1 none "-" "butt"
     "bevel").1.2 3 (by decide)⟩

theorem arangeList_length (s d : ℝ) (n : ℕ) : (arangeList s d n).length = n := by
  rw [arangeList, List.length_map, List.length_range]

theorem arange_full_turn (n : ℕ) (hn : 0 < n) :
    arange 0 (2 * Real.pi) (2 * Real.pi / n) =
      arangeList 0 (2 * Real.pi / n) n := by
  unfold arange
  congr 1
  have h2pi : (2 * Real.pi) ≠ 0 := by positivity
  rw [sub_zero, div_div_eq_mul_div, mul_comm (2 * Real.pi) (n : ℝ),
    mul_div_assoc, div_self h2pi, mul_one]
  exact Nat.ceil_natCast n

theorem arange_half_offset (n : ℕ) (hn : 0 < n) :
    arange ((2 * Real.pi / n) / 2) (2 * Real.pi) (2 * Real.pi / n) =
      arangeList ((2 * Real.pi / n) / 2) (2 * Real.pi / n) n := by
  unfold arange
  congr 1
  have hpi : Real.pi ≠ 0 := Real.pi_ne_zero
  have hn' : (n : ℝ) ≠ 0 := Nat.cast_ne_zero.mpr hn.ne'
  have key : (2 * Real.pi - (2 * Real.pi / n) / 2) / (2 * Real.pi / n) =
      (n : ℝ) - 1 / 2 := by
    field_simp
    ring
  rw [key, Nat.ceil_eq_iff hn.ne']
  rw [Nat.cast_sub hn, Nat.cast_one]
  constructor <;> [linarith; linarith]

theorem regularPolygonPoints_closed_form (n : ℕ) (r px py : ℝ) (hn : 0 < n) :
    regularPolygonPoints n r px py =
      (List.range n).map (fun k : ℕ =>
        (r * Real.cos ((k : ℝ) * (2 * Real.pi / n)) + px,
         r * Real.sin ((k : ℝ) * (2 * Real.pi / n)) + py)) := by
  rw [regularPolygonPoints, regularPolygonAngles, arange_full_turn n hn,
    arangeList, List.map_map]
  congr 1
  funext k
  simp [Function.comp, zero_add]

/-- C6: `RegularPolygon` generates exactly `n_faces` vertices, the
`i`-th being `position + radius·(cos(i·2π/n), sin(i·2π/n))`; every
vertex lies at Euclidean distance `radius` from `position`, the angles
of consecutive vertices differ by exactly `2π/n`, and the first vertex
lies at `position + (radius, 0)` (on the positive local x-axis). -/
theorem regular_polygon_vertices_spec (n : ℕ) (r px py : ℝ) (hn : 0 < n)
    (hr : 0 ≤ r) :
    (regularPolygonPoints n r px py).length = n ∧
    (∀ i (hi : i < (regularPolygonPoints n r px py).length),
      (regularPolygonPoints n r px py).get ⟨i, hi⟩ =
        (r * Real.cos ((i : ℝ) * (2 * Real.pi / n)) + px,
         r * Real.sin ((i : ℝ) * (2 * Real.pi / n)) + py)) ∧
    (∀ p ∈ regularPolygonPoints n r px py,
      Real.sqrt ((p.1 - px) ^ 2 + (p.2 - py) ^ 2) = r) ∧
    (∀ i (hi : i + 1 < (regularPolygonAngles n).length),
      (regularPolygonAngles n).get ⟨i + 1, hi⟩ -
        (regularPolygonAngles n).get ⟨i, Nat.lt_of_succ_lt hi⟩ =
          2 * Real.pi / n) ∧
    (∀ h0 : 0 < (regularPolygonPoints n r px py).length,
      (regularPolygonPoints n r px py).get ⟨0, h0⟩ = (r + px, py)) := by
  have hP := regularPolygonPoints_closed_form n r px py hn
  have hlen : (regularPolygonPoints n r px py).length = n := by
    rw [hP, List.length_map, List.length_range]
  have hget : ∀ i (hi : i < (regularPolygonPoints n r px py).length),
      (regularPolygonPoints n r px py).get ⟨i, hi⟩ =
        (r * Real.cos ((i : ℝ) * (2 * Real.pi / n)) + px,
         r * Real.sin ((i : ℝ) * (2 * Real.pi / n)) + py) := by
    intro i hi
    have hi' : i < n := by rw [← hlen]; exact hi
    simp only [hP, List.get_eq_getElem, List.getElem_map, List.getElem_range]
  refine ⟨hlen, hget, ?_, ?_, ?_⟩
  · intro p hp
    rw [hP] at hp
    obtain ⟨k, _, rfl⟩ := List.mem_map.mp hp
    have hsq : (r * Real.cos ((k : ℝ) * (2 * Real.pi / n)) + px - px) ^ 2 +
        (r * Real.sin ((k : ℝ) * (2 * Real.pi / n)) + py - py) ^ 2 = r ^ 2 := by
      rw [add_sub_cancel_right, add_sub_cancel_right, mul_pow, mul_pow,
        ← mul_add, Real.cos_sq_add_sin_sq, mul_one]
    rw [hsq, Real.sqrt_sq hr]
  · intro i hi
    have hA : regularPolygonAngles n = arangeList 0 (2 * Real.pi / n) n :=
      arange_full_turn n hn
    simp only [hA, arangeList, List.get_eq_getElem, List.getElem_map,
      List.getElem_range]
    push_cast
    ring
  · intro h0
    rw [hget 0 h0]
    norm_num

/-- C6, witness for the vertex theorem at `n = 3`, `r = 1`,
`position = (0,0)`. -/
theorem regular_polygon_vertices_spec_witness :
    (0 < 3 ∧ (0 : ℝ) ≤ 1) ∧ (regularPolygonPoints 3 1 0 0).length = 3 :=
  ⟨⟨by norm_num, by norm_num⟩,
   (regular_polygon_vertices_spec 3 1 0 0 (by norm_num) (by norm_num)).1⟩

theorem interleave_length (xs ys : List α) (h : xs.length = ys.length) :
    (interleave xs ys).length = 2 * xs.length := by
  induction xs generalizing ys with
  | nil =>
    cases ys with
    | nil => rfl
    | cons y ys => simp at h
  | cons x xs ih =>
    cases ys with
    | nil => simp at h
    | cons y ys =>
      have h' : xs.length = ys.length := by simpa using h
      simp only [interleave, List.length_cons, ih ys h']
      omega

theorem interleave_map_range (f g : ℕ → α) (n : ℕ) :
    interleave ((List.range n).map f) ((List.range n).map g) =
      (List.range n).flatMap (fun k => [f k, g k]) := by
  induction n generalizing f g with
  | zero => rfl
  | succ n ih =>
    simp only [List.range_succ_eq_map, List.map_cons, List.map_map,
      interleave, List.flatMap_cons, List.flatMap_map]
    rw [ih (f ∘ Nat.succ) (g ∘ Nat.succ)]
    simp [Function.comp, List.flatMap_map]

theorem circle_point_dist (r a px py : ℝ) (hr : 0 ≤ r) :
    Real.sqrt ((r * Real.cos a + px - px) ^ 2 +
      (r * Real.sin a + py - py) ^ 2) = r := by
  have hsq : (r * Real.cos a + px - px) ^ 2 +
      (r * Real.sin a + py - py) ^ 2 = r ^ 2 := by
    rw [add_sub_cancel_right, add_sub_cancel_right, mul_pow, mul_pow,
      ← mul_add, Real.cos_sq_add_sin_sq, mul_one]
  rw [hsq, Real.sqrt_sq hr]

theorem starPoints_closed_form (n : ℕ) (rext rint px py : ℝ) (hn : 0 < n) :
    starPoints n rext rint px py =
      (List.range n).flatMap (fun k : ℕ =>
        [(rext * Real.cos ((k : ℝ) * (2 * Real.pi / n)) + px,
          rext * Real.sin ((k : ℝ) * (2 * Real.pi / n)) + py),
         (rint * Real.cos ((k : ℝ) * (2 * Real.pi / n) + Real.pi / n) + px,
          rint * Real.sin ((k : ℝ) * (2 * Real.pi / n) + Real.pi / n) + py)]) := by
  unfold starPoints
  rw [arange_full_turn n hn, arange_half_offset n hn]
  unfold arangeList
  rw [List.map_map, List.map_map, interleave_map_range]
  congr 1
  funext k
  have ha : (2 * Real.pi / n) / 2 + (k : ℝ) * (2 * Real.pi / n) =
      (k : ℝ) * (2 * Real.pi / n) + Real.pi / n := by ring
  simp only [Function.comp, zero_add, ha]

/-- C7: `Star` generates exactly `2·n_points` vertices, interleaved
outer-inner-outer-inner: the list is the concatenation over
`k = 0 .. n-1` of the pair `[outer k, inner k]` where `outer k` lies on
the external-radius circle at angle `k·2π/n` and `inner k` on the
internal-radius circle at angle `k·2π/n + π/n` (offset by exactly half
the outer spacing); each outer (resp. inner) vertex lies at Euclidean
distance `external_radius` (resp. `internal_radius`) from `position`. -/
theorem star_vertices_spec (n : ℕ) (rext rint px py : ℝ) (hn : 0 < n)
    (hre : 0 ≤ rext) (hri : 0 ≤ rint) :
    (starPoints n rext rint px py).length = 2 * n ∧
    starPoints n rext rint px py =
      (List.range n).flatMap (fun k : ℕ =>
        [(rext * Real.cos ((k : ℝ) * (2 * Real.pi / n)) + px,
          rext * Real.sin ((k : ℝ) * (2 * Real.pi / n)) + py),
         (rint * Real.cos ((k : ℝ) * (2 * Real.pi / n) + Real.pi / n) + px,
          rint * Real.sin ((k : ℝ) * (2 * Real.pi / n) + Real.pi / n) + py)]) ∧
    (∀ k : ℕ,
      Real.sqrt ((rext * Real.cos ((k : ℝ) * (2 * Real.pi / n)) + px - px) ^ 2 +
        (rext * Real.sin ((k : ℝ) * (2 * Real.pi / n)) + py - py) ^ 2) = rext ∧
      Real.sqrt
        ((rint * Real.cos ((k : ℝ) * (2 * Real.pi / n) + Real.pi / n) + px - px) ^ 2 +
         (rint * Real.sin ((k : ℝ) * (2 * Real.pi / n) + Real.pi / n) + py - py) ^ 2) =
        rint) := by
  refine ⟨?_, starPoints_closed_form n rext rint px py hn, ?_⟩
  · unfold starPoints
    rw [arange_full_turn n hn, arange_half_offset n hn]
    rw [interleave_length]
    · rw [List.length_map, arangeList_length]
    · rw [List.length_map, List.length_map, arangeList_length, arangeList_length]
  · intro k
    exact ⟨circle_point_dist rext _ px py hre, circle_point_dist rint _ px py hri⟩

/-- C7, witness for the star theorem at `n = 5`, radii `2` and `1`,
`position = (0,0)`. -/
theorem star_vertices_spec_witness :
    (0 < 5 ∧ (0 : ℝ) ≤ 2 ∧ (0 : ℝ) ≤ 1) ∧
    (starPoints 5 2 1 0 0).length = 2 * 5 :=
  ⟨⟨by norm_num, by norm_num, by norm_num⟩,
   (star_vertices_spec 5 2 1 0 0 (by norm_num) (by norm_num) (by norm_num)).1⟩

/-- C10, witness: construction succeeds on a concrete one-point list. -/
theorem lines_polygon_nonempty_required_witness :
    (mkLines [((1 : ℚ), (1 : ℚ))] 0 none "-" 1 "butt" "bevel" 1).isSome = true :=
  (lines_polygon_nonempty_required [((1 : ℚ), (1 : ℚ))] 0 1 1 none none "-"
    "butt" "bevel").1.mpr (by decide)
